import Mathlib

/-!
Shallow embedding of the tiamat CLI core (branch-comparison / pull-request
orchestration, repository resolution, and version bumping) from `src/main.py`,
`src/commands/merge.py`, `src/commands/actions.py` and `src/commands/release.py`.

Python strings are modelled as Lean `String`s; the handful of Python string
operations the code uses (`sep in s`, `s.split(sep)`, `s.split(sep, 1)`,
indexing a list) are embedded on `List Char` so that every definition reduces
in the kernel. Fallible Python code (an expression that can raise
`IndexError`) is modelled with `Option`/`Except`.
-/

/-- Boolean test that `pat` is an initial segment of `s` (character lists). -/
def chStarts : List Char → List Char → Bool
  | [], _ => true
  | _ :: _, [] => false
  | a :: as, b :: bs => a == b && chStarts as bs

/-- Locate the first occurrence of `sep` in `s`: returns the part before the
occurrence and the part after it, or `none` when `sep` does not occur.
Mirrors the scan Python performs for `sep in s` and `s.split(sep, 1)`. -/
def findSplit (sep : List Char) : List Char → Option (List Char × List Char)
  | [] => none
  | c :: rest =>
    if chStarts sep (c :: rest) then some ([], List.drop sep.length (c :: rest))
    else
      match findSplit sep rest with
      | some p => some (c :: p.1, p.2)
      | none => none

/-- Fuel-driven repeated split, enough fuel always being `s.length + 1`
because each step consumes at least the (non-empty) separator. -/
def splitFuel (sep : List Char) : Nat → List Char → List (List Char)
  | 0, s => [s]
  | Nat.succ n, s =>
    match findSplit sep s with
    | none => [s]
    | some p => p.1 :: splitFuel sep n p.2

/-- Python `s.split(sep)` for a non-empty separator; `"".split(sep) = [""]`. -/
def pySplit (s sep : String) : List String :=
  (splitFuel sep.data (s.data.length + 1) s.data).map String.mk

/-- Python `sep in s` (substring containment) for a non-empty separator. -/
def pyContains (s sep : String) : Bool :=
  (findSplit sep.data s.data).isSome

/-- Python `s.split(sep, 1)` unpacked into a pair, under the guard
`sep in s` under which the code performs it (the `none` branch is the
unreachable fallback). -/
def pySplitOnce (s sep : String) : String × String :=
  match findSplit sep.data s.data with
  | some p => (String.mk p.1, String.mk p.2)
  | none => (s, "")

/-- Python `l[i]` for a non-negative index: `none` models `IndexError`. -/
def pyIndex (l : List α) (i : Nat) : Option α :=
  l.get? i

/-- Python truthiness of an optional string: `None` and `""` are falsy. -/
def pyTruthyS : Option String → Bool
  | none => false
  | some s => !(s == "")

/-- `os.getenv("REPOSITORIES", "").split(",")` from `src/main.py` line 25:
the configured repository list as a function of the raw environment value
(`none` = variable unset). -/
def repositoriesFromEnv (v : Option String) : List String :=
  pySplit (v.getD "") ","

/-- The expression `r.split("/")[1]` evaluated for one configured identifier:
`none` models the `IndexError` raised when `r` contains no `/`. -/
def splitSuffix (r : String) : Option String :=
  pyIndex (pySplit r "/") 1

/-- Evaluate `r.split("/")[1]` over every identifier of the configured list,
as the list comprehension in `resolve_repo` does; any `IndexError` aborts
the whole comprehension. -/
def listSuffixes : List String → Option (List String)
  | [] => some []
  | r :: rest =>
    match splitSuffix r, listSuffixes rest with
    | some s, some ss => some (s :: ss)
    | _, _ => none

/-- `resolve_repo` from `src/main.py` lines 44-50: an input containing `/` is
returned unchanged; otherwise the first configured identifier whose suffix
after `/` equals the input is returned, and when none matches the input is
returned unchanged. `Except.error ()` models an uncaught `IndexError`. -/
def resolve_repo (repos : List String) (ri : String) : Except Unit String :=
  if pyContains ri "/" then Except.ok ri
  else
    match listSuffixes repos with
    | none => Except.error ()
    | some sufs =>
      let matching := ((repos.zip sufs).filter (fun p => p.2 == ri)).map Prod.fst
      Except.ok (match matching with
        | m :: _ => m
        | [] => ri)

/-- `resolve_repo` from `src/commands/merge.py` lines 9-18 (identical in
`release.py` and `actions.py`): additionally returns `None` for a falsy
(empty) input, otherwise behaves as the `main.py` resolver. -/
def merge_resolve_repo (repos : List String) (ri : String) :
    Except Unit (Option String) :=
  if ri == "" then Except.ok none
  else (resolve_repo repos ri).map some

/-- The `if not repo_full:` guard of the `merge` command
(`src/commands/merge.py` lines 43-45): whether the command reports
"Repository not found" after resolution. -/
def merge_not_found_reported (repos : List String) (ri : String) :
    Except Unit Bool :=
  (merge_resolve_repo repos ri).map (fun ro => !pyTruthyS ro)

/-! ## Version bumping (spec-modelled)

`GitHubService.bump_version` lives in `services/github.py`, which is not
among the provided sources; only its callers are. -/

/-- Which semantic-version component to increment. -/
inductive BumpKind where
  | major
  | minor
  | patch
deriving DecidableEq

/-- Modelled from the spec: a `SemanticVersion` — an ordered triple of
non-negative integers, optionally carrying a leading `v` in its string
form (`services/github.py` is missing from the sources). -/
structure SemVer where
  hasV : Bool
  major : Nat
  minor : Nat
  patch : Nat
deriving DecidableEq

/-- Modelled from the spec: the component increment of `bump` —
`major` increments major and resets minor and patch to 0, `minor`
increments minor and resets patch to 0, `patch` increments patch only. -/
def bumpSemVer (k : BumpKind) (v : SemVer) : SemVer :=
  match k with
  | .major => ⟨v.hasV, v.major + 1, 0, 0⟩
  | .minor => ⟨v.hasV, v.major, v.minor + 1, 0⟩
  | .patch => ⟨v.hasV, v.major, v.minor, v.patch + 1⟩

/-- Numeric value of a decimal digit character, `none` otherwise. -/
def digitVal (c : Char) : Option Nat :=
  if c.isDigit then some (c.toNat - 48) else none

/-- Accumulator pass over decimal digit characters. -/
def chToNatAux : List Char → Nat → Option Nat
  | [], acc => some acc
  | c :: rest, acc =>
    match digitVal c with
    | some d => chToNatAux rest (acc * 10 + d)
    | none => none

/-- Parse a non-empty all-digit character list as a natural number. -/
def chToNat : List Char → Option Nat
  | [] => none
  | cs => chToNatAux cs 0

/-- Modelled from the spec: parsing a version string — an optional leading
`v`, then three dot-separated non-negative integers; anything else is a
`MalformedVersion` failure (`none`). -/
def parseSemVer (s : String) : Option SemVer :=
  let p : Bool × List Char :=
    match s.data with
    | 'v' :: t => (true, t)
    | t => (false, t)
  match (splitFuel ['.'] (p.2.length + 1) p.2).map chToNat with
  | [some a, some b, some c] => some ⟨p.1, a, b, c⟩
  | _ => none

/-- Modelled from the spec: rendering a version back to its string form,
preserving the `v` marker. -/
def renderSemVer (v : SemVer) : String :=
  (if v.hasV then "v" else "") ++ toString v.major ++ "." ++
    toString v.minor ++ "." ++ toString v.patch

/-- Modelled from the spec: `GitHubService.bump_version` — parse, increment
per kind, render; `none` models the malformed-version failure. -/
def bump_version (s : String) (k : BumpKind) : Option String :=
  (parseSemVer s).map (fun v => renderSemVer (bumpSemVer k v))

/-- Strict lexicographic order on the `(major, minor, patch)` triple. -/
def semVerLt (a b : SemVer) : Prop :=
  a.major < b.major ∨
    (a.major = b.major ∧
      (a.minor < b.minor ∨ (a.minor = b.minor ∧ a.patch < b.patch)))

/-! ## The `createpr` batch orchestration (`src/main.py` lines 136-205)

The two external collaborators (`GitHubService`, `SlackService`) are
abstracted as oracles in `CreateprEnv`; the run is modelled as a fold that
threads the `notifications` dictionary and records every external call and
printed line as an event, in program order. -/

/-- One observable action of a `createpr` run, in program order. -/
inductive PrEvent where
  /-- `GitHubService.get_pending_commits(repo, ...)` -/
  | compare : String → PrEvent
  /-- `GitHubService.create_pull_request(repo, ...)` -/
  | createPR : String → PrEvent
  /-- `rprint(f"🔗 {pr_url}")` -/
  | printUrl : String → PrEvent
  /-- `rprint(f"❌ Failed to create PR for {repo}")` -/
  | printFail : String → PrEvent
  /-- `SlackService.send_message(message, tag_fe_developers, tag_be_developers)` -/
  | send : String → Bool → Bool → PrEvent
deriving DecidableEq

/-- The `notifications` dictionary `{"fe": None, "be": None}`. -/
abbrev Notif := Option String × Option String

/-- Oracles for a `createpr` run: the configured frontend repositories and
the responses of the two external GitHub calls. -/
structure CreateprEnv where
  feRepos : List String
  hasCommits : String → Bool
  prUrl : String → Option String

/-- `is_fe_repo` from `src/main.py` lines 31-32. -/
def is_fe_repo (env : CreateprEnv) (repo : String) : Bool :=
  env.feRepos.contains repo

/-- The dictionary update of `src/main.py` lines 192-195: append the URL to
an already-truthy bucket, otherwise start the bucket with the header line. -/
def appendNotif (cur : Option String) (url : String) : Option String :=
  if pyTruthyS cur then some (cur.getD "" ++ "\n" ++ url)
  else some ("New PRs have been created:\n" ++ url)

/-- Apply an update to the bucket selected by `key` (`fe` when true). -/
def setKey (n : Notif) (isFe : Bool) (f : Option String → Option String) :
    Notif :=
  if isFe then (f n.1, n.2) else (n.1, f n.2)

/-- The body of the repository loop, `src/main.py` lines 181-197, for one
repository: compare, then conditionally create the PR and queue or report. -/
def processRepo (env : CreateprEnv) (repo : String) (n : Notif) :
    Notif × List PrEvent :=
  if env.hasCommits repo then
    match env.prUrl repo with
    | some url =>
      (setKey n (is_fe_repo env repo) (fun cur => appendNotif cur url),
        [.compare repo, .createPR repo, .printUrl url])
    | none => (n, [.compare repo, .createPR repo, .printFail repo])
  else (n, [.compare repo])

/-- The repository loop itself (`for repo in REPOSITORIES:`), threading the
`notifications` dictionary and concatenating the event trace. -/
def runRepos (env : CreateprEnv) : List String → Notif → Notif × List PrEvent
  | [], n => (n, [])
  | r :: rest, n =>
    let p := processRepo env r n
    let q := runRepos env rest p.1
    (q.1, p.2 ++ q.2)

/-- The flush loop of `src/main.py` lines 199-205: one `send_message` per
truthy bucket, `fe` first (dictionary insertion order), tagging the matching
audience. -/
def flushNotifs (n : Notif) : List PrEvent :=
  (if pyTruthyS n.1 then [PrEvent.send (n.1.getD "") true false] else []) ++
    (if pyTruthyS n.2 then [PrEvent.send (n.2.getD "") false true] else [])

/-- The whole batch branch of `createpr` (`src/main.py` lines 161, 180-205):
buckets start at `{"fe": None, "be": None}`, the loop runs, then the flush. -/
def createpr_batch (env : CreateprEnv) (repos : List String) :
    Notif × List PrEvent :=
  let p := runRepos env repos (none, none)
  (p.1, p.2 ++ flushNotifs p.1)

/-- Classifier: is this event a `create_pull_request` call? -/
def isCreatePR : PrEvent → Bool
  | .createPR _ => true
  | _ => false

/-- Classifier: is this event a `get_pending_commits` call? -/
def isCompare : PrEvent → Bool
  | .compare _ => true
  | _ => false

/-- Classifier: is this event a `send_message` call? -/
def isSend : PrEvent → Bool
  | .send _ _ _ => true
  | _ => false

/-- Classifier: is this event an external call concerning repository `r`
(its comparison or its PR creation)? -/
def isCallFor (r : String) : PrEvent → Bool
  | .compare x => x == r
  | .createPR x => x == r
  | _ => false

/-! ## The `bump` command (`src/commands/actions.py` lines 158-244)

`actions.py`'s `bump` is registered after `release.py`'s and therefore wins
the command-name; its flow is: token guard, resolve, fetch latest version,
bump, default the name and body, confirm, create release. External state
(latest version, the current date, the create-release outcome) is abstracted
in `BumpEnv`; the trace records the external calls and the decisive printed
lines. -/

/-- One observable action of a `bump` run. -/
inductive BumpEvent where
  /-- the missing-token message -/
  | printNoToken
  /-- `rprint(f"❌ Repository not found: {repo}")` -/
  | printNotFound : String → BumpEvent
  /-- `GitHubService.get_latest_version(repo_full)` -/
  | getLatest : String → BumpEvent
  /-- the pre-confirmation summary block (repo, current, new, branch, name) -/
  | printSummary : String → String → String → String → String → BumpEvent
  /-- `GitHubService.create_release(repo, tag, branch, name, body, draft, prerelease)` -/
  | createRelease : String → String → String → String → String → Bool → Bool → BumpEvent
  /-- the success message -/
  | printSuccess : String → String → BumpEvent
  /-- `rprint("Release creation cancelled.")` -/
  | printCancelled
deriving DecidableEq

/-- Oracles for a `bump` run. -/
structure BumpEnv where
  repositories : List String
  tokenSet : Bool
  latestVersion : String
  releaseOk : Bool
  today : String

/-- The flag decoding of `src/commands/actions.py` lines 201-205: `--minor`
is the default and is never consulted; `--major` beats `--patch`. -/
def pickKind (majorF patchF : Bool) : BumpKind :=
  if majorF then .major else if patchF then .patch else .minor

/-- The `bump` command of `src/commands/actions.py` lines 172-244 as a
function of its oracles, arguments, and the operator's confirmation answer.
`Except.error ()` models an uncaught exception (an `IndexError` inside
`resolve_repo`, or — modelled from the spec, since `services/github.py` is
absent — a `MalformedVersion` failure inside `bump_version`). -/
def actions_bump (env : BumpEnv) (repoArg : String)
    (majorF minorF patchF : Bool) (branch : String)
    (name body : Option String) (draft prerelease confirm : Bool) :
    Except Unit (List BumpEvent) :=
  if !env.tokenSet then Except.ok [.printNoToken]
  else
    match merge_resolve_repo env.repositories repoArg with
    | .error _ => Except.error ()
    | .ok ro =>
      if !pyTruthyS ro then Except.ok [.printNotFound repoArg]
      else
        let repoFull := ro.getD ""
        let kind := pickKind majorF patchF
        match bump_version env.latestVersion kind with
        | none => Except.error ()
        | some newV =>
          let nameV := if pyTruthyS name then name.getD "" else newV
          let bodyV :=
            if pyTruthyS body then body.getD ""
            else "Release " ++ newV ++ " created by Tiamat on " ++ env.today
          let summary : List BumpEvent :=
            [.getLatest repoFull,
              .printSummary repoFull env.latestVersion newV branch nameV]
          if confirm then
            Except.ok (summary ++
              [.createRelease repoFull newV branch nameV bodyV draft prerelease] ++
                (if env.releaseOk then [.printSuccess env.latestVersion newV] else []))
          else Except.ok (summary ++ [.printCancelled])

/-- Classifier: is this event a `create_release` call? -/
def isCreateRelease : BumpEvent → Bool
  | .createRelease _ _ _ _ _ _ _ => true
  | _ => false

/-- The compare-spec parsing shared by `check` (`src/main.py` lines 117-122)
and `createpr` (lines 154-159): a token containing `...` is split there,
else one containing `..` is split there, else the configured defaults are
kept. `none` models an absent token. -/
def parse_compare_spec (base head : String) (spec : Option String) :
    String × String :=
  match spec with
  | none => (base, head)
  | some s =>
    if pyContains s "..." then pySplitOnce s "..."
    else if pyContains s ".." then pySplitOnce s ".."
    else (base, head)

/-- Projection of an `Except` result of a `bump` run to its event list
(empty on an uncaught exception). -/
def okEvents (x : Except Unit (List BumpEvent)) : List BumpEvent :=
  match x with
  | .ok l => l
  | .error _ => []

/-- Whether a `bump` run terminated normally (no uncaught exception). -/
def exceptOk (x : Except Unit (List BumpEvent)) : Bool :=
  match x with
  | .ok _ => true
  | .error _ => false

instance {e a : Type} [DecidableEq e] [DecidableEq a] :
    DecidableEq (Except e a) := fun x y =>
  match x, y with
  | .ok u, .ok v =>
    if h : u = v then isTrue (by rw [h]) else isFalse (by simp [h])
  | .error u, .error v =>
    if h : u = v then isTrue (by rw [h]) else isFalse (by simp [h])
  | .ok _, .error _ => isFalse (by simp)
  | .error _, .ok _ => isFalse (by simp)

/-! ## Lemmas about repository resolution -/

/-- An identifier without `/` makes `r.split("/")[1]` an `IndexError`. -/
lemma splitSuffix_eq_none (r : String) (h : pyContains r "/" = false) :
    splitSuffix r = none := by
  have hf : findSplit "/".data r.data = none := by
    unfold pyContains at h
    cases hx : findSplit "/".data r.data with
    | none => rfl
    | some p => rw [hx] at h; simp at h
  unfold splitSuffix pySplit pyIndex
  rw [show r.data.length + 1 = Nat.succ r.data.length from rfl]
  unfold splitFuel
  rw [hf]
  rfl

/-- The comprehension in `resolve_repo` aborts with `IndexError` as soon as
one configured identifier lacks a `/`. -/
lemma listSuffixes_eq_none (repos : List String) (r : String)
    (hmem : r ∈ repos) (h : pyContains r "/" = false) :
    listSuffixes repos = none := by
  induction repos with
  | nil => cases hmem
  | cons x rest ih =>
    unfold listSuffixes
    rcases List.mem_cons.mp hmem with hx | hx
    · rw [hx] at h
      rw [splitSuffix_eq_none x h]
    · rw [ih hx]
      cases splitSuffix x <;> rfl

/-- When no configured suffix equals the input, the comprehension filter is
empty. -/
lemma zip_filter_eq_nil (l1 l2 : List String) (ri : String)
    (h : ri ∉ l2) :
    (l1.zip l2).filter (fun p => p.2 == ri) = [] := by
  apply List.filter_eq_nil_iff.mpr
  intro p hp hbeq
  exact h (by
    have h2 := (List.of_mem_zip hp).2
    have : p.2 = ri := by simpa using hbeq
    rwa [this] at h2)

/-- No-match behaviour of `resolve_repo` from `src/main.py`: the input comes
back unchanged. -/
lemma resolve_repo_no_match (repos : List String) (ri : String)
    (sufs : List String)
    (hslash : pyContains ri "/" = false)
    (hsufs : listSuffixes repos = some sufs)
    (hnm : ri ∉ sufs) :
    resolve_repo repos ri = Except.ok ri := by
  unfold resolve_repo
  rw [hslash, hsufs]
  simp [zip_filter_eq_nil repos sufs ri hnm]

/-! ## Claim theorems: version bumping, parsing, resolution -/

/-- C5: for a well-formed version string, `bump` with kind `patch` increments
only the patch component, `minor` increments minor and resets patch, `major`
increments major and resets minor and patch, and a leading `v` of the input
is preserved: `bump("1.2.3", patch) = "1.2.4"`, `bump("1.2.3", minor) =
"1.3.0"`, `bump("1.2.3", major) = "2.0.0"`, `bump("v1.2.3", patch) =
"v1.2.4"`. -/
theorem bump_version_examples :
    bump_version "1.2.3" .patch = some "1.2.4"
    ∧ bump_version "1.2.3" .minor = some "1.3.0"
    ∧ bump_version "1.2.3" .major = some "2.0.0"
    ∧ bump_version "v1.2.3" .patch = some "v1.2.4" := by
  refine ⟨?_, ?_, ?_, ?_⟩ <;> decide

/-- C6: for every semantic-version triple of non-negative integers and every
bump kind, the bumped version is strictly greater than the input under
lexicographic ordering of the `(major, minor, patch)` triple. -/
theorem bump_strictly_increases (v : SemVer) (k : BumpKind) :
    semVerLt v (bumpSemVer k v) := by
  cases k <;> simp [bumpSemVer, semVerLt]

/-- C7: parsing the compare-spec token `"main...release"` yields
`(base="main", head="release")`; `"main..release"` yields the same pair
(with `...` checked before `..`, and `"main...release"` containing both
separators); a token with neither separator leaves the configured defaults
unchanged. -/
theorem compare_spec_parsing (b h : String) :
    parse_compare_spec b h (some "main...release") = ("main", "release")
    ∧ parse_compare_spec b h (some "main..release") = ("main", "release")
    ∧ pyContains "main...release" ".." = true
    ∧ parse_compare_spec b h (some "justoneword") = (b, h) :=
  ⟨rfl, rfl, by decide, rfl⟩

/-- C10: resolution of a short-form input evaluates `split("/")[1]` on every
configured identifier, so if any configured identifier lacks a `/` — in
particular the list `[""]` produced when the `REPOSITORIES` environment
variable is unset or empty — resolving any short-form input raises
`IndexError` instead of returning a result. -/
theorem resolve_short_form_index_error (repos : List String) (ri r : String)
    (hshort : pyContains ri "/" = false)
    (hmem : r ∈ repos)
    (hr : pyContains r "/" = false) :
    repositoriesFromEnv none = [""]
    ∧ repositoriesFromEnv (some "") = [""]
    ∧ resolve_repo repos ri = Except.error () := by
  refine ⟨by decide, by decide, ?_⟩
  unfold resolve_repo
  rw [hshort, listSuffixes_eq_none repos r hmem hr]
  rfl

/-- Witness for C10 at the unset-environment repository list `[""]` and the
short input `"x"`. -/
theorem resolve_short_form_index_error_witness :
    pyContains "x" "/" = false
    ∧ "" ∈ ([""] : List String)
    ∧ pyContains "" "/" = false
    ∧ (repositoriesFromEnv none = [""]
        ∧ repositoriesFromEnv (some "") = [""]
        ∧ resolve_repo [""] "x" = Except.error ()) :=
  ⟨by decide, by decide, by decide,
    resolve_short_form_index_error [""] "x" "" (by decide) (by decide) (by decide)⟩

/-- Counterexample to C4: for `resolve("nope", ["acme/a"])` the resolver of
the single-repository caller (`src/commands/merge.py`) returns the input
unchanged, not the absent result the claim requires, and the caller does not
report RepositoryNotFound. -/
theorem resolve_no_match_counterexample :
    merge_resolve_repo ["acme/a"] "nope" = Except.ok (some "nope")
    ∧ merge_resolve_repo ["acme/a"] "nope" ≠ Except.ok none
    ∧ merge_not_found_reported ["acme/a"] "nope" = Except.ok false
    ∧ resolve_repo ["acme/a"] "nope" = Except.ok "nope" := by
  refine ⟨by decide, by decide, by decide, by decide⟩

/-- C4 (amended): for a non-empty input containing no `/` that matches the
suffix of no configured identifier (the suffixes all being well defined),
`resolve_repo` returns the input unchanged — not absent — and the `merge`
caller does not report RepositoryNotFound and proceeds with the unresolved
name. -/
theorem resolve_no_match_returns_input (repos : List String) (ri : String)
    (sufs : List String)
    (hne : ri ≠ "")
    (hslash : pyContains ri "/" = false)
    (hsufs : listSuffixes repos = some sufs)
    (hnm : ri ∉ sufs) :
    resolve_repo repos ri = Except.ok ri
    ∧ merge_resolve_repo repos ri = Except.ok (some ri)
    ∧ merge_not_found_reported repos ri = Except.ok false := by
  have h1 := resolve_repo_no_match repos ri sufs hslash hsufs hnm
  have hbe : (ri == "") = false := by simpa using hne
  refine ⟨h1, ?_, ?_⟩
  · unfold merge_resolve_repo
    rw [hbe, h1]
    rfl
  · unfold merge_not_found_reported merge_resolve_repo
    rw [hbe, h1]
    simp [Except.map, pyTruthyS, hbe]

/-- Witness for the amended C4 at `resolve("nope", ["acme/a"])`. -/
theorem resolve_no_match_returns_input_witness :
    "nope" ≠ ""
    ∧ pyContains "nope" "/" = false
    ∧ listSuffixes ["acme/a"] = some ["a"]
    ∧ "nope" ∉ (["a"] : List String)
    ∧ (resolve_repo ["acme/a"] "nope" = Except.ok "nope"
        ∧ merge_resolve_repo ["acme/a"] "nope" = Except.ok (some "nope")
        ∧ merge_not_found_reported ["acme/a"] "nope" = Except.ok false) :=
  ⟨by decide, by decide, by decide, by decide,
    resolve_no_match_returns_input ["acme/a"] "nope" ["a"] (by decide)
      (by decide) (by decide) (by decide)⟩

/-- Classifier: a `send_message` call tagging the frontend audience. -/
def isFeSend : PrEvent → Bool
  | .send _ tfe _ => tfe
  | _ => false

/-- Classifier: a `send_message` call tagging the backend audience. -/
def isBeSend : PrEvent → Bool
  | .send _ _ tbe => tbe
  | _ => false

/-! ## Lemmas about the `createpr` loop trace -/

/-- A repository whose comparison reports nothing is skipped entirely. -/
lemma processRepo_skip (env : CreateprEnv) (r : String) (n : Notif)
    (h : env.hasCommits r = false) :
    processRepo env r n = (n, [PrEvent.compare r]) := by
  simp [processRepo, h]

/-- A failed PR creation leaves the buckets untouched and prints a failure
line. -/
lemma processRepo_fail (env : CreateprEnv) (r : String) (n : Notif)
    (hc : env.hasCommits r = true) (hu : env.prUrl r = none) :
    processRepo env r n =
      (n, [PrEvent.compare r, PrEvent.createPR r, PrEvent.printFail r]) := by
  simp [processRepo, hc, hu]

/-- The loop over a concatenation decomposes into the two sub-loops. -/
lemma runRepos_append (env : CreateprEnv) (l1 l2 : List String) (n : Notif) :
    runRepos env (l1 ++ l2) n =
      ((runRepos env l2 (runRepos env l1 n).1).1,
        (runRepos env l1 n).2 ++ (runRepos env l2 (runRepos env l1 n).1).2) := by
  induction l1 generalizing n with
  | nil => simp [runRepos]
  | cons r rest ih => simp [runRepos, ih, List.append_assoc]

/-- A run over repositories that all lack pending commits only compares. -/
lemma runRepos_all_skip (env : CreateprEnv) (l : List String) (n : Notif)
    (h : ∀ x ∈ l, env.hasCommits x = false) :
    runRepos env l n = (n, l.map PrEvent.compare) := by
  induction l generalizing n with
  | nil => simp [runRepos]
  | cons r rest ih =>
    have hr := h r (List.mem_cons_self r rest)
    have hrest : ∀ x ∈ rest, env.hasCommits x = false := fun x hx =>
      h x (List.mem_cons_of_mem r hx)
    simp [runRepos, processRepo_skip env r n hr, ih n hrest]

/-- The loop invokes `create_pull_request` exactly for the repositories whose
comparison reports pending commits, in order. -/
lemma runRepos_filter_createPR (env : CreateprEnv) (l : List String) (n : Notif) :
    (runRepos env l n).2.filter isCreatePR =
      (l.filter env.hasCommits).map PrEvent.createPR := by
  induction l generalizing n with
  | nil => simp [runRepos]
  | cons r rest ih =>
    cases hc : env.hasCommits r with
    | false =>
      simp [runRepos, processRepo, hc, List.filter_cons, isCreatePR, ih]
    | true =>
      cases hu : env.prUrl r with
      | none =>
        simp [runRepos, processRepo, hc, hu, List.filter_cons, isCreatePR, ih]
      | some u =>
        simp [runRepos, processRepo, hc, hu, List.filter_cons, isCreatePR, ih]

/-- The loop performs exactly one comparison per listed repository, in
order. -/
lemma runRepos_filter_compare (env : CreateprEnv) (l : List String) (n : Notif) :
    (runRepos env l n).2.filter isCompare = l.map PrEvent.compare := by
  induction l generalizing n with
  | nil => simp [runRepos]
  | cons r rest ih =>
    cases hc : env.hasCommits r with
    | false =>
      simp [runRepos, processRepo, hc, List.filter_cons, isCompare, ih]
    | true =>
      cases hu : env.prUrl r with
      | none =>
        simp [runRepos, processRepo, hc, hu, List.filter_cons, isCompare, ih]
      | some u =>
        simp [runRepos, processRepo, hc, hu, List.filter_cons, isCompare, ih]

/-- The loop itself sends no message. -/
lemma runRepos_filter_send (env : CreateprEnv) (l : List String) (n : Notif) :
    (runRepos env l n).2.filter isSend = [] := by
  induction l generalizing n with
  | nil => simp [runRepos]
  | cons r rest ih =>
    cases hc : env.hasCommits r with
    | false => simp [runRepos, processRepo, hc, List.filter_cons, isSend, ih]
    | true =>
      cases hu : env.prUrl r with
      | none => simp [runRepos, processRepo, hc, hu, List.filter_cons, isSend, ih]
      | some u => simp [runRepos, processRepo, hc, hu, List.filter_cons, isSend, ih]

/-- A frontend-tagged send is a send. -/
lemma isSend_of_isFeSend (e : PrEvent) (h : isFeSend e = true) :
    isSend e = true := by
  cases e <;> simp_all [isFeSend, isSend]

/-- A backend-tagged send is a send. -/
lemma isSend_of_isBeSend (e : PrEvent) (h : isBeSend e = true) :
    isSend e = true := by
  cases e <;> simp_all [isBeSend, isSend]

/-- For a repository without pending commits, the external calls concerning
it in the loop trace are exactly its comparisons. -/
lemma runRepos_filter_callFor (env : CreateprEnv) (l : List String) (n : Notif)
    (r : String) (hr : env.hasCommits r = false) :
    (runRepos env l n).2.filter (isCallFor r) =
      (l.filter (fun x => x == r)).map PrEvent.compare := by
  induction l generalizing n with
  | nil => simp [runRepos]
  | cons x rest ih =>
    cases hc : env.hasCommits x with
    | false =>
      cases hxr : (x == r) with
      | false =>
        simp [runRepos, processRepo, hc, List.filter_cons, isCallFor, hxr, ih]
      | true =>
        have hxe : x = r := by simpa using hxr
        subst hxe
        simp [runRepos, processRepo, hc, List.filter_cons, isCallFor, ih]
    | true =>
      have hxr : (x == r) = false := by
        cases hxe : (x == r) with
        | false => rfl
        | true =>
          have : x = r := by simpa using hxe
          rw [this, hr] at hc
          cases hc
      cases hu : env.prUrl x with
      | none =>
        simp [runRepos, processRepo, hc, hu, List.filter_cons, isCallFor, hxr, ih]
      | some u =>
        simp [runRepos, processRepo, hc, hu, List.filter_cons, isCallFor, hxr, ih]

/-- The flush produces one frontend-tagged send exactly when the frontend
bucket is truthy. -/
lemma flush_filter_feSend (n : Notif) :
    (flushNotifs n).filter isFeSend =
      (if pyTruthyS n.1 then [PrEvent.send (n.1.getD "") true false] else []) := by
  cases h1 : pyTruthyS n.1 <;> cases h2 : pyTruthyS n.2 <;>
    simp [flushNotifs, h1, h2, isFeSend]

/-- The flush produces one backend-tagged send exactly when the backend
bucket is truthy. -/
lemma flush_filter_beSend (n : Notif) :
    (flushNotifs n).filter isBeSend =
      (if pyTruthyS n.2 then [PrEvent.send (n.2.getD "") false true] else []) := by
  cases h1 : pyTruthyS n.1 <;> cases h2 : pyTruthyS n.2 <;>
    simp [flushNotifs, h1, h2, isBeSend]

/-- The flush contains no PR creation. -/
lemma flush_filter_createPR (n : Notif) :
    (flushNotifs n).filter isCreatePR = [] := by
  cases h1 : pyTruthyS n.1 <;> cases h2 : pyTruthyS n.2 <;>
    simp [flushNotifs, h1, h2, isCreatePR]

/-- The flush contains no comparison. -/
lemma flush_filter_compare (n : Notif) :
    (flushNotifs n).filter isCompare = [] := by
  cases h1 : pyTruthyS n.1 <;> cases h2 : pyTruthyS n.2 <;>
    simp [flushNotifs, h1, h2, isCompare]

/-- The flush contains no per-repository external call. -/
lemma flush_filter_callFor (n : Notif) (r : String) :
    (flushNotifs n).filter (isCallFor r) = [] := by
  cases h1 : pyTruthyS n.1 <;> cases h2 : pyTruthyS n.2 <;>
    simp [flushNotifs, h1, h2, isCallFor]

/-! ## Claim theorems: the `createpr` batch -/

/-- C1: over a repository list in which only `B` has pending commits (and
its creation succeeds with URL `u`), `create_pull_request` is invoked
exactly once, for `B`; exactly one notification is queued, in `B`'s audience
bucket while the other bucket stays empty; and any repository `r` without
pending commits contributes no external call beyond its comparisons. -/
theorem createpr_only_pending_repo (env : CreateprEnv) (pre post : List String)
    (B u r : String)
    (hpre : pre.all (fun x => !env.hasCommits x) = true)
    (hpost : post.all (fun x => !env.hasCommits x) = true)
    (hB : env.hasCommits B = true)
    (hu : env.prUrl B = some u)
    (hr : env.hasCommits r = false) :
    ((createpr_batch env (pre ++ B :: post)).2.filter isCreatePR
        = [PrEvent.createPR B])
    ∧ ((createpr_batch env (pre ++ B :: post)).1 =
        (if is_fe_repo env B
          then (some ("New PRs have been created:\n" ++ u), none)
          else ((none : Option String),
            some ("New PRs have been created:\n" ++ u))))
    ∧ ((createpr_batch env (pre ++ B :: post)).2.filter (isCallFor r)
        = ((pre ++ B :: post).filter (fun x => x == r)).map PrEvent.compare) := by
  have hpre' : ∀ x ∈ pre, env.hasCommits x = false := by
    intro x hx
    have := List.all_eq_true.mp hpre x hx
    simpa using this
  have hpost' : ∀ x ∈ post, env.hasCommits x = false := by
    intro x hx
    have := List.all_eq_true.mp hpost x hx
    simpa using this
  refine ⟨?_, ?_, ?_⟩
  · show ((runRepos env (pre ++ B :: post) (none, none)).2 ++
        flushNotifs (runRepos env (pre ++ B :: post) (none, none)).1).filter
        isCreatePR = _
    rw [List.filter_append, runRepos_filter_createPR, flush_filter_createPR,
      List.filter_append]
    have h1 : pre.filter env.hasCommits = [] :=
      List.filter_eq_nil_iff.mpr (fun x hx => by simp [hpre' x hx])
    have h2 : post.filter env.hasCommits = [] :=
      List.filter_eq_nil_iff.mpr (fun x hx => by simp [hpost' x hx])
    simp [h1, h2, List.filter_cons, hB]
  · show (runRepos env (pre ++ B :: post) (none, none)).1 = _
    rw [runRepos_append, runRepos_all_skip env pre (none, none) hpre']
    show (runRepos env (B :: post) (none, none)).1 = _
    have hproc : processRepo env B (none, none) =
        (setKey (none, none) (is_fe_repo env B) (fun cur => appendNotif cur u),
          [PrEvent.compare B, PrEvent.createPR B, PrEvent.printUrl u]) := by
      simp [processRepo, hB, hu]
    show (runRepos env post (processRepo env B (none, none)).1).1 = _
    rw [hproc]
    rw [runRepos_all_skip env post _ hpost']
    cases hfe : is_fe_repo env B <;>
      simp [setKey, hfe, appendNotif, pyTruthyS]
  · show ((runRepos env (pre ++ B :: post) (none, none)).2 ++
        flushNotifs (runRepos env (pre ++ B :: post) (none, none)).1).filter
        (isCallFor r) = _
    rw [List.filter_append, runRepos_filter_callFor env _ _ r hr,
      flush_filter_callFor]
    simp

/-- Witness for C1 at `pre = ["o/a"]`, `B = "o/b"`, `post = ["o/c"]` with
only `B` reporting pending commits and its creation succeeding. -/
theorem createpr_only_pending_repo_witness :
    ((["o/a"] : List String).all
        (fun x => !(CreateprEnv.mk [] (fun s => s == "o/b")
          (fun _ => some "u")).hasCommits x) = true)
    ∧ ((["o/c"] : List String).all
        (fun x => !(CreateprEnv.mk [] (fun s => s == "o/b")
          (fun _ => some "u")).hasCommits x) = true)
    ∧ ((CreateprEnv.mk [] (fun s => s == "o/b")
        (fun _ => some "u")).hasCommits "o/b" = true)
    ∧ ((CreateprEnv.mk [] (fun s => s == "o/b")
        (fun _ => some "u")).prUrl "o/b" = some "u")
    ∧ ((CreateprEnv.mk [] (fun s => s == "o/b")
        (fun _ => some "u")).hasCommits "o/a" = false)
    ∧ (((createpr_batch (CreateprEnv.mk [] (fun s => s == "o/b")
          (fun _ => some "u")) (["o/a"] ++ "o/b" :: ["o/c"])).2.filter
            isCreatePR = [PrEvent.createPR "o/b"])
        ∧ ((createpr_batch (CreateprEnv.mk [] (fun s => s == "o/b")
            (fun _ => some "u")) (["o/a"] ++ "o/b" :: ["o/c"])).1 =
            (if is_fe_repo (CreateprEnv.mk [] (fun s => s == "o/b")
              (fun _ => some "u")) "o/b"
              then (some ("New PRs have been created:\n" ++ "u"), none)
              else ((none : Option String),
                some ("New PRs have been created:\n" ++ "u"))))
        ∧ ((createpr_batch (CreateprEnv.mk [] (fun s => s == "o/b")
            (fun _ => some "u")) (["o/a"] ++ "o/b" :: ["o/c"])).2.filter
              (isCallFor "o/a")
            = ((["o/a"] ++ "o/b" :: ["o/c"]).filter
                (fun x => x == "o/a")).map PrEvent.compare)) :=
  ⟨by decide, by decide, by decide, by decide, by decide,
    createpr_only_pending_repo (CreateprEnv.mk [] (fun s => s == "o/b")
      (fun _ => some "u")) ["o/a"] ["o/c"] "o/b" "u" "o/a"
      (by decide) (by decide) (by decide) (by decide) (by decide)⟩

/-- C2: in every batch `createpr` run the audience buckets start empty, a
repository step changes them only on a successful PR creation, the loop
itself sends nothing, and the final trace contains exactly one
frontend-tagged (resp. backend-tagged) send when the corresponding final
bucket is non-empty and none when it is empty. -/
theorem createpr_flush_per_bucket (env : CreateprEnv) (repos : List String) :
    ((runRepos env repos ((none : Option String),
        (none : Option String))).2.filter isSend = [])
    ∧ (createpr_batch env [] =
        (((none : Option String), (none : Option String)), []))
    ∧ (∀ r : String, ∀ n : Notif, (processRepo env r n).1 = n
        ∨ (env.hasCommits r = true ∧ env.prUrl r ≠ none))
    ∧ (((createpr_batch env repos).2.filter isFeSend).length
        = (if pyTruthyS (createpr_batch env repos).1.1 then 1 else 0))
    ∧ (((createpr_batch env repos).2.filter isBeSend).length
        = (if pyTruthyS (createpr_batch env repos).1.2 then 1 else 0)) := by
  have hloop := runRepos_filter_send env repos ((none : Option String),
    (none : Option String))
  have hnosend : ∀ e ∈ (runRepos env repos ((none : Option String),
      (none : Option String))).2, ¬ isSend e = true :=
    List.filter_eq_nil_iff.mp hloop
  refine ⟨hloop, rfl, ?_, ?_, ?_⟩
  · intro r n
    cases hc : env.hasCommits r with
    | false => exact Or.inl (by rw [processRepo_skip env r n hc])
    | true =>
      cases hu : env.prUrl r with
      | none => exact Or.inl (by rw [processRepo_fail env r n hc hu])
      | some u => exact Or.inr ⟨rfl, by simp⟩
  · show (((runRepos env repos (none, none)).2 ++
        flushNotifs (runRepos env repos (none, none)).1).filter
          isFeSend).length = _
    rw [List.filter_append]
    have h1 : (runRepos env repos ((none : Option String),
        (none : Option String))).2.filter isFeSend = [] :=
      List.filter_eq_nil_iff.mpr
        (fun e he hf => hnosend e he (isSend_of_isFeSend e hf))
    rw [h1, flush_filter_feSend]
    rw [show (createpr_batch env repos).1 = (runRepos env repos
      ((none : Option String), (none : Option String))).1 from rfl]
    cases hfe : pyTruthyS (runRepos env repos ((none : Option String),
        (none : Option String))).1.1 <;> simp [hfe]
  · show (((runRepos env repos (none, none)).2 ++
        flushNotifs (runRepos env repos (none, none)).1).filter
          isBeSend).length = _
    rw [List.filter_append]
    have h1 : (runRepos env repos ((none : Option String),
        (none : Option String))).2.filter isBeSend = [] :=
      List.filter_eq_nil_iff.mpr
        (fun e he hf => hnosend e he (isSend_of_isBeSend e hf))
    rw [h1, flush_filter_beSend]
    rw [show (createpr_batch env repos).1 = (runRepos env repos
      ((none : Option String), (none : Option String))).1 from rfl]
    cases hbe : pyTruthyS (runRepos env repos ((none : Option String),
        (none : Option String))).1.2 <;> simp [hbe]

/-- C3: when `B`'s comparison reports pending commits but its PR creation
returns no URL, a failure line for `B` is printed, the final buckets equal
those of the same run without `B`, every remaining repository `r` is still
compared, and every listed repository receives exactly its comparison
call in order — the batch is not aborted. -/
theorem createpr_failure_continues (env : CreateprEnv) (pre post : List String)
    (B r : String)
    (hB : env.hasCommits B = true)
    (hfail : env.prUrl B = none)
    (hr : r ∈ post) :
    (PrEvent.printFail B ∈ (createpr_batch env (pre ++ B :: post)).2)
    ∧ ((createpr_batch env (pre ++ B :: post)).1
        = (createpr_batch env (pre ++ post)).1)
    ∧ (PrEvent.compare r ∈ (createpr_batch env (pre ++ B :: post)).2)
    ∧ ((createpr_batch env (pre ++ B :: post)).2.filter isCompare
        = (pre ++ B :: post).map PrEvent.compare) := by
  have hcomp : (createpr_batch env (pre ++ B :: post)).2.filter isCompare
      = (pre ++ B :: post).map PrEvent.compare := by
    show ((runRepos env (pre ++ B :: post) (none, none)).2 ++
        flushNotifs (runRepos env (pre ++ B :: post) (none, none)).1).filter
        isCompare = _
    rw [List.filter_append, runRepos_filter_compare, flush_filter_compare]
    simp
  have hstep1 : (runRepos env (B :: post)
      (runRepos env pre ((none : Option String), (none : Option String))).1).2
      = [PrEvent.compare B, PrEvent.createPR B, PrEvent.printFail B]
        ++ (runRepos env post
          (runRepos env pre ((none : Option String),
            (none : Option String))).1).2 := by
    simp [runRepos, processRepo_fail env B _ hB hfail]
  have hstep2 : (runRepos env (B :: post)
      (runRepos env pre ((none : Option String), (none : Option String))).1).1
      = (runRepos env post
        (runRepos env pre ((none : Option String),
          (none : Option String))).1).1 := by
    simp [runRepos, processRepo_fail env B _ hB hfail]
  refine ⟨?_, ?_, ?_, hcomp⟩
  · show PrEvent.printFail B ∈
        (runRepos env (pre ++ B :: post) (none, none)).2 ++
          flushNotifs (runRepos env (pre ++ B :: post) (none, none)).1
    refine List.mem_append.mpr (Or.inl ?_)
    rw [runRepos_append]
    show PrEvent.printFail B ∈
      (runRepos env pre (none, none)).2 ++
        (runRepos env (B :: post) (runRepos env pre (none, none)).1).2
    rw [hstep1]
    simp [List.mem_append]
  · show (runRepos env (pre ++ B :: post) (none, none)).1
        = (runRepos env (pre ++ post) (none, none)).1
    rw [runRepos_append, runRepos_append]
    show (runRepos env (B :: post) (runRepos env pre (none, none)).1).1
        = (runRepos env post (runRepos env pre (none, none)).1).1
    exact hstep2
  · have hrmem : r ∈ pre ++ B :: post :=
      List.mem_append.mpr (Or.inr (List.mem_cons_of_mem B hr))
    have hmapped : PrEvent.compare r ∈ (pre ++ B :: post).map PrEvent.compare :=
      List.mem_map_of_mem PrEvent.compare hrmem
    rw [← hcomp] at hmapped
    exact List.mem_of_mem_filter hmapped

/-- Witness for C3 at `pre = ["o/a"]`, `B = "o/b"`, `post = ["o/c"]` with
`B` reporting pending commits and the creation returning no URL. -/
theorem createpr_failure_continues_witness :
    ((CreateprEnv.mk [] (fun s => s == "o/b")
        (fun _ => none)).hasCommits "o/b" = true)
    ∧ ((CreateprEnv.mk [] (fun s => s == "o/b")
        (fun _ => none)).prUrl "o/b" = none)
    ∧ ("o/c" ∈ (["o/c"] : List String))
    ∧ ((PrEvent.printFail "o/b" ∈
          (createpr_batch (CreateprEnv.mk [] (fun s => s == "o/b")
            (fun _ => none)) (["o/a"] ++ "o/b" :: ["o/c"])).2)
        ∧ ((createpr_batch (CreateprEnv.mk [] (fun s => s == "o/b")
            (fun _ => none)) (["o/a"] ++ "o/b" :: ["o/c"])).1
            = (createpr_batch (CreateprEnv.mk [] (fun s => s == "o/b")
              (fun _ => none)) (["o/a"] ++ ["o/c"])).1)
        ∧ (PrEvent.compare "o/c" ∈
            (createpr_batch (CreateprEnv.mk [] (fun s => s == "o/b")
              (fun _ => none)) (["o/a"] ++ "o/b" :: ["o/c"])).2)
        ∧ ((createpr_batch (CreateprEnv.mk [] (fun s => s == "o/b")
            (fun _ => none)) (["o/a"] ++ "o/b" :: ["o/c"])).2.filter isCompare
            = ((["o/a"] ++ "o/b" :: ["o/c"]).filter
                (fun _ => true)).map PrEvent.compare)) :=
  ⟨by decide, by decide, by decide,
    createpr_failure_continues (CreateprEnv.mk [] (fun s => s == "o/b")
      (fun _ => none)) ["o/a"] ["o/c"] "o/b" "o/c"
      (by decide) (by decide) (by decide)⟩

/-! ## Claim theorems: the `bump` command -/

/-- C8: when the operator declines the confirmation prompt in the `bump`
command, the run terminates normally, performs zero external
`create_release` calls, and its last printed line reports cancellation. -/
theorem bump_decline_no_release (env : BumpEnv) (repoArg : String)
    (majorF minorF patchF : Bool) (branch : String)
    (name body : Option String) (draft prerelease : Bool)
    (rf nv : String)
    (htok : env.tokenSet = true)
    (hres : merge_resolve_repo env.repositories repoArg = Except.ok (some rf))
    (hrf : rf ≠ "")
    (hbv : bump_version env.latestVersion (pickKind majorF patchF) = some nv) :
    (exceptOk (actions_bump env repoArg majorF minorF patchF branch
        name body draft prerelease false) = true)
    ∧ ((okEvents (actions_bump env repoArg majorF minorF patchF branch
        name body draft prerelease false)).filter isCreateRelease = [])
    ∧ ((okEvents (actions_bump env repoArg majorF minorF patchF branch
        name body draft prerelease false)).getLast?
        = some BumpEvent.printCancelled) := by
  have hbe : (rf == "") = false := by simpa using hrf
  have hrun : actions_bump env repoArg majorF minorF patchF branch
      name body draft prerelease false =
      Except.ok [BumpEvent.getLatest rf,
        BumpEvent.printSummary rf env.latestVersion nv branch
          (if pyTruthyS name then name.getD "" else nv),
        BumpEvent.printCancelled] := by
    unfold actions_bump
    rw [htok, hres]
    simp only [Bool.not_true, Bool.false_eq_true, if_false]
    rw [show pyTruthyS (some rf) = true by simp [pyTruthyS, hbe]]
    simp only [Bool.not_true, Bool.false_eq_true, if_false]
    rw [hbv]
    rfl
  rw [hrun]
  refine ⟨rfl, ?_, rfl⟩
  simp [okEvents, isCreateRelease]

/-- Witness for C8 at a concrete environment where `coralreef` resolves and
the latest version `1.2.3` bumps; confirmation declined. -/
theorem bump_decline_no_release_witness :
    ((BumpEnv.mk ["acme/coralreef"] true "1.2.3" true "January 01, 2026").tokenSet
        = true)
    ∧ (merge_resolve_repo (BumpEnv.mk ["acme/coralreef"] true "1.2.3" true
        "January 01, 2026").repositories "coralreef"
        = Except.ok (some "acme/coralreef"))
    ∧ ("acme/coralreef" ≠ "")
    ∧ (bump_version (BumpEnv.mk ["acme/coralreef"] true "1.2.3" true
        "January 01, 2026").latestVersion (pickKind false false) = some "1.3.0")
    ∧ ((exceptOk (actions_bump (BumpEnv.mk ["acme/coralreef"] true "1.2.3" true
          "January 01, 2026") "coralreef" false false false "main"
          none none false false false) = true)
        ∧ ((okEvents (actions_bump (BumpEnv.mk ["acme/coralreef"] true "1.2.3"
            true "January 01, 2026") "coralreef" false false false "main"
            none none false false false)).filter isCreateRelease = [])
        ∧ ((okEvents (actions_bump (BumpEnv.mk ["acme/coralreef"] true "1.2.3"
            true "January 01, 2026") "coralreef" false false false "main"
            none none false false false)).getLast?
            = some BumpEvent.printCancelled)) :=
  ⟨by decide, by decide, by decide, by decide,
    bump_decline_no_release (BumpEnv.mk ["acme/coralreef"] true "1.2.3" true
      "January 01, 2026") "coralreef" false false false "main" none none
      false false "acme/coralreef" "1.3.0" (by decide) (by decide)
      (by decide) (by decide)⟩

/-- C9: in the `bump` command, an unsupplied name defaults to the new
version string and an unsupplied body defaults to the templated message
containing the current date, and exactly these defaults are passed to the
external `create_release` call. -/
theorem bump_default_name_and_body (env : BumpEnv) (repoArg : String)
    (majorF minorF patchF : Bool) (branch : String)
    (draft prerelease : Bool) (rf nv : String)
    (htok : env.tokenSet = true)
    (hres : merge_resolve_repo env.repositories repoArg = Except.ok (some rf))
    (hrf : rf ≠ "")
    (hbv : bump_version env.latestVersion (pickKind majorF patchF) = some nv) :
    (exceptOk (actions_bump env repoArg majorF minorF patchF branch
        none none draft prerelease true) = true)
    ∧ (BumpEvent.createRelease rf nv branch nv
        ("Release " ++ nv ++ " created by Tiamat on " ++ env.today)
        draft prerelease
        ∈ okEvents (actions_bump env repoArg majorF minorF patchF branch
          none none draft prerelease true)) := by
  have hbe : (rf == "") = false := by simpa using hrf
  have hrun : actions_bump env repoArg majorF minorF patchF branch
      none none draft prerelease true =
      Except.ok ([BumpEvent.getLatest rf,
        BumpEvent.printSummary rf env.latestVersion nv branch nv] ++
        [BumpEvent.createRelease rf nv branch nv
          ("Release " ++ nv ++ " created by Tiamat on " ++ env.today)
          draft prerelease] ++
        (if env.releaseOk
          then [BumpEvent.printSuccess env.latestVersion nv] else [])) := by
    unfold actions_bump
    rw [htok, hres]
    simp only [Bool.not_true, Bool.false_eq_true, if_false]
    rw [show pyTruthyS (some rf) = true by simp [pyTruthyS, hbe]]
    simp only [Bool.not_true, Bool.false_eq_true, if_false]
    rw [hbv]
    rfl
  rw [hrun]
  refine ⟨rfl, ?_⟩
  simp [okEvents]

/-- Witness for C9 at the same concrete environment with confirmation
accepted and neither name nor body supplied. -/
theorem bump_default_name_and_body_witness :
    ((BumpEnv.mk ["acme/coralreef"] true "1.2.3" true "January 01, 2026").tokenSet
        = true)
    ∧ (merge_resolve_repo (BumpEnv.mk ["acme/coralreef"] true "1.2.3" true
        "January 01, 2026").repositories "coralreef"
        = Except.ok (some "acme/coralreef"))
    ∧ ("acme/coralreef" ≠ "")
    ∧ (bump_version (BumpEnv.mk ["acme/coralreef"] true "1.2.3" true
        "January 01, 2026").latestVersion (pickKind false false) = some "1.3.0")
    ∧ ((exceptOk (actions_bump (BumpEnv.mk ["acme/coralreef"] true "1.2.3" true
          "January 01, 2026") "coralreef" false false false "main"
          none none false false true) = true)
        ∧ (BumpEvent.createRelease "acme/coralreef" "1.3.0" "main" "1.3.0"
            ("Release " ++ "1.3.0" ++ " created by Tiamat on " ++
              (BumpEnv.mk ["acme/coralreef"] true "1.2.3" true
                "January 01, 2026").today) false false
            ∈ okEvents (actions_bump (BumpEnv.mk ["acme/coralreef"] true
              "1.2.3" true "January 01, 2026") "coralreef" false false false
              "main" none none false false true))) :=
  ⟨by decide, by decide, by decide, by decide,
    bump_default_name_and_body (BumpEnv.mk ["acme/coralreef"] true "1.2.3"
      true "January 01, 2026") "coralreef" false false false "main"
      false false "acme/coralreef" "1.3.0" (by decide) (by decide)
      (by decide) (by decide)⟩
